import Mathlib

/-!
Verification development for the multi-tenant healthcare backend
(`backend/` routers, middleware and utilities).  Python request handlers
are shallowly embedded as Lean functions; database access is modelled as
explicit lists of connection operations, one list per pooled-connection
checkout.  Machine floats of the risk pipeline are modelled over the
rationals.
-/

namespace Backend

/-! ## Data model (models/user.py, models/patient.py) -/

/-- UserRole enumeration from models/user.py. -/
inductive UserRole
  | system_admin
  | organization_admin
  | user
  deriving DecidableEq, Repr

/-- String value of a role, as stored by the enum. -/
def UserRole.value : UserRole → String
  | .system_admin => "system_admin"
  | .organization_admin => "organization_admin"
  | .user => "user"

/-- The fields of UserResponse that the tenancy and authorization logic reads.
Organization ids are modelled as strings (UUIDs in the source). -/
structure Principal where
  role : UserRole
  organization_id : Option String
  is_active : Bool
  deriving DecidableEq, Repr

/-! ## Connection-checkout trace model for the RLS tenancy context

Every handler acquires a pooled connection with `get_db_connection()` and
issues a sequence of operations on it.  We record each checkout as a list
of `DbOp`; a full request is a list of checkouts in order.  `set_config`
calls for `app.current_user_role` and `app.current_user_org_id` are the
two context operations; every other statement is a `query`, tagged with
whether it reads or writes tenant-scoped rows. -/

inductive DbOp
  | setConfigRole (value : String)
  | setConfigOrg (value : String)
  | query (sql : String) (tenantScoped : Bool)
  deriving DecidableEq, Repr

/-- The single checkout performed by `get_current_user` in
utils/dependencies.py: look the user up by email (an authentication read,
issued before any context is in place), then set the role variable, then
set the org variable - to the org id when present, otherwise explicitly
to the empty string. -/
def getCurrentUserCheckout (p : Principal) : List DbOp :=
  [DbOp.query "SELECT user_id, username, email, role, organization_id, location_id, is_active, created_at, updated_at, last_login FROM users WHERE email = $1 AND is_active = true" false,
   DbOp.setConfigRole p.role.value] ++
  (match p.organization_id with
   | some org => [DbOp.setConfigOrg org]
   | none => [DbOp.setConfigOrg ""])

/-- The copy-pasted context block used at the top of the router handlers
(patient_management.py, engagement.py, data_import.py): the role variable
is always set, but the org variable is set only when the principal has a
non-null organization_id; there is no else branch clearing it. -/
def routerRlsContext (p : Principal) : List DbOp :=
  [DbOp.setConfigRole p.role.value] ++
  (match p.organization_id with
   | some org => [DbOp.setConfigOrg org]
   | none => [])

/-- The checkout performed by the `get_users` handler in routers/auth.py:
it acquires its own connection and immediately runs the user-listing
query; no `set_config` call appears anywhere in this handler. -/
def getUsersCheckout (p : Principal) : List DbOp :=
  if p.role = UserRole.system_admin then
    [DbOp.query "SELECT user_id, username, email, role, organization_id, location_id, is_active, created_at, updated_at, last_login FROM users ORDER BY created_at DESC" true]
  else
    [DbOp.query "SELECT user_id, username, email, role, organization_id, location_id, is_active, created_at, updated_at, last_login FROM users WHERE organization_id = $1 ORDER BY created_at DESC" true]

/-- Full trace of `GET /auth/users`: the `get_admin_user` dependency runs
`get_current_user` on one pooled connection (released when the dependency
returns), then the handler body runs on a second, freshly checked-out
connection. -/
def getUsersRequestTrace (p : Principal) : List (List DbOp) :=
  [getCurrentUserCheckout p, getUsersCheckout p]

/-- Trace of the engagement-dashboard handler body in
routers/engagement.py: the router context block, then the dashboard
query, on one checkout (the preceding dependency checkout is as in
`getUsersRequestTrace`). -/
def engagementDashboardCheckout (p : Principal) : List DbOp :=
  routerRlsContext p ++
  [DbOp.query "SELECT ... FROM get_patient_engagement_dashboard_filtered($1, $2)" true]

/-- Scans one checkout: every tenant-scoped query must be preceded, on the
same checkout, by both a role `set_config` and an org `set_config`. -/
def checkoutOkAux : Bool → Bool → List DbOp → Bool
  | _, _, [] => true
  | _, orgSet, DbOp.setConfigRole _ :: rest => checkoutOkAux true orgSet rest
  | roleSet, _, DbOp.setConfigOrg _ :: rest => checkoutOkAux roleSet true rest
  | roleSet, orgSet, DbOp.query _ ts :: rest =>
      (!ts || (roleSet && orgSet)) && checkoutOkAux roleSet orgSet rest

/-- A connection checkout respects the tenancy discipline when no
tenant-scoped query runs before both context variables were set during
that same checkout. -/
def checkoutOk (ops : List DbOp) : Bool :=
  checkoutOkAux false false ops

/-- A request trace respects the discipline when every one of its
checkouts does. -/
def traceOk (trace : List (List DbOp)) : Bool :=
  trace.all checkoutOk

/-- True when the checkout contains an explicit `set_config` of the org
variable to the empty string. -/
def clearsOrg (ops : List DbOp) : Bool :=
  ops.any fun op => op = DbOp.setConfigOrg ""

/-- True when the checkout contains any `set_config` of the org variable. -/
def touchesOrg (ops : List DbOp) : Bool :=
  ops.any fun op => match op with
    | DbOp.setConfigOrg _ => true
    | _ => false

/-- An organization admin of tenant org-a. -/
def orgAdminA : Principal :=
  { role := .organization_admin, organization_id := some "org-a", is_active := true }

/-- A system administrator; per the data model its organization_id is null. -/
def sysAdmin : Principal :=
  { role := .system_admin, organization_id := none, is_active := true }

/-! ## Patient management (routers/patient_management.py)

The handlers are embedded as pure functions over the rows the SQL
statements would return: lookups are passed in as functions or options,
and the INSERT/UPDATE result is the returned patient row.  Errors are the
HTTP status codes the handler raises. -/

/-- Stored patient row: the columns the assignment logic touches. -/
structure Patient where
  organization_id : String
  program_id : Option String
  location_id : Option String
  assignment_status : String
  deriving DecidableEq, Repr

/-- Row returned by the program lookup (status = active is part of the
SQL filter, so a returned row is always active). -/
structure ProgramRow where
  organization_id : String
  deriving DecidableEq, Repr

/-- Row returned by the location lookup. -/
structure LocationRow where
  organization_id : String
  deriving DecidableEq, Repr

/-- PatientCreate body fields relevant to organization and assignment. -/
structure PatientCreate where
  organization_id : Option String
  program_id : Option String
  location_id : Option String
  deriving DecidableEq, Repr

/-- PatientUpdate body: program and location fields, plus a flag recording
whether any other updatable field was provided with a non-null value
(the handler rejects a body that provides nothing). -/
structure PatientUpdate where
  program_id : Option String
  location_id : Option String
  otherFieldProvided : Bool
  deriving DecidableEq, Repr

/-- PatientAssignmentRequest: all three ids are required by the model. -/
structure PatientAssignmentRequest where
  patient_id : String
  program_id : String
  location_id : String
  deriving DecidableEq, Repr

/-- The program-validation block shared by `create_patient` and
`update_patient`: when a program_id was provided, the program must exist
with status active and belong to `org_id`, else the handler raises 400. -/
def validate_program (org_id : String) (program_id : Option String)
    (lookupProgram : String → Option ProgramRow) : Except Nat Unit :=
  match program_id with
  | none => Except.ok ()
  | some pid =>
    match lookupProgram pid with
    | none => Except.error 400
    | some program =>
      if program.organization_id ≠ org_id then Except.error 400 else Except.ok ()

/-- The location-validation block shared by `create_patient` and
`update_patient`. -/
def validate_location (org_id : String) (location_id : Option String)
    (lookupLocation : String → Option LocationRow) : Except Nat Unit :=
  match location_id with
  | none => Except.ok ()
  | some lid =>
    match lookupLocation lid with
    | none => Except.error 400
    | some location =>
      if location.organization_id ≠ org_id then Except.error 400 else Except.ok ()

/-- Embeds `create_patient`.  `lookupProgram` and `lookupLocation` stand
for the two validation SELECTs (the program SELECT already filters on
status = active).  A system admin must supply an organization_id in the
body; any other caller uses their own, which must exist.  On success the
returned row is what the INSERT stores: `assignment_status` is
"assigned" when both program_id and location_id were provided, else
"pending". -/
def create_patient (current : Principal) (pd : PatientCreate)
    (lookupProgram : String → Option ProgramRow)
    (lookupLocation : String → Option LocationRow) : Except Nat Patient :=
  match (if current.role = UserRole.system_admin then pd.organization_id
         else current.organization_id) with
  | none => Except.error 400
  | some org_id =>
    match validate_program org_id pd.program_id lookupProgram with
    | Except.error e => Except.error e
    | Except.ok _ =>
      match validate_location org_id pd.location_id lookupLocation with
      | Except.error e => Except.error e
      | Except.ok _ =>
        let assignment_status :=
          if pd.program_id.isSome && pd.location_id.isSome then "assigned" else "pending"
        Except.ok { organization_id := org_id, program_id := pd.program_id,
                    location_id := pd.location_id,
                    assignment_status := assignment_status }

/-- Embeds `update_patient` for an existing patient row `current_patient`.
Fields provided as null are skipped by the dynamic update builder, so a
provided program_id or location_id here means a non-null value; a body
providing nothing raises 400.  The new assignment status is derived from
the effective program and location and written only when it differs from
the stored one. -/
def update_patient (current_patient : Patient) (upd : PatientUpdate)
    (lookupProgram : String → Option ProgramRow)
    (lookupLocation : String → Option LocationRow) : Except Nat Patient :=
  match validate_program current_patient.organization_id upd.program_id lookupProgram with
  | Except.error e => Except.error e
  | Except.ok _ =>
    match validate_location current_patient.organization_id upd.location_id lookupLocation with
    | Except.error e => Except.error e
    | Except.ok _ =>
      if !(upd.program_id.isSome || upd.location_id.isSome || upd.otherFieldProvided) then
        Except.error 400
      else
        let new_program_id :=
          match upd.program_id with
          | some p => some p
          | none => current_patient.program_id
        let new_location_id :=
          match upd.location_id with
          | some l => some l
          | none => current_patient.location_id
        let derived :=
          if new_program_id.isSome && new_location_id.isSome then "assigned" else "pending"
        let assignment_status :=
          if derived ≠ current_patient.assignment_status then derived
          else current_patient.assignment_status
        Except.ok { current_patient with
                     program_id := new_program_id,
                     location_id := new_location_id,
                     assignment_status := assignment_status }

/-- Embeds `assign_patient`.  The three lookups stand for the patient,
program (active only) and location SELECTs.  The result pairs the
handler outcome with the final stored patient row: the UPDATE is the last
statement, so on any raised error the row is unchanged. -/
def assign_patient (current : Principal) (req : PatientAssignmentRequest)
    (lookupPatient : String → Option Patient)
    (lookupProgram : String → Option ProgramRow)
    (lookupLocation : String → Option LocationRow) :
    Except Nat Patient × Option Patient :=
  let _ := routerRlsContext current
  match lookupPatient req.patient_id with
  | none => (Except.error 404, none)
  | some patient =>
    match lookupProgram req.program_id, lookupLocation req.location_id with
    | none, _ => (Except.error 404, some patient)
    | _, none => (Except.error 404, some patient)
    | some program, some location =>
      if program.organization_id ≠ patient.organization_id ∨
         location.organization_id ≠ patient.organization_id then
        (Except.error 400, some patient)
      else
        let updated : Patient :=
          { patient with
              program_id := some req.program_id,
              location_id := some req.location_id,
              assignment_status := "assigned" }
        (Except.ok updated, some updated)

/-! ## Login and forgot-password (routers/auth.py) -/

/-- The columns of the users row that the login handler reads. -/
structure UserRow where
  email : String
  password_hash : String
  is_active : Bool
  deriving DecidableEq, Repr

/-- UserLogin body from models/user.py. -/
structure UserLogin where
  email : String
  password : String
  deriving DecidableEq, Repr

/-- Embeds the `login` handler.  `verify_password` is the hashing
capability from utils/auth.py; `lookup` is the SELECT by email, which
deliberately includes inactive users.  Missing user or wrong password
raises 401; a correct password for a deactivated account raises 403 with
a dedicated message; otherwise the login succeeds. -/
def login (verify_password : String → String → Bool)
    (lookup : String → Option UserRow) (creds : UserLogin) : Except Nat UserRow :=
  match lookup creds.email with
  | none => Except.error 401
  | some user_data =>
    if !verify_password creds.password user_data.password_hash then Except.error 401
    else if !user_data.is_active then Except.error 403
    else Except.ok user_data

/-- ForgotPasswordRequest body from models/user.py. -/
structure ForgotPasswordRequest where
  email : String
  deriving DecidableEq, Repr

/-- HTTP response observable by the caller. -/
structure HttpResponse where
  status_code : Nat
  body : String
  deriving DecidableEq, Repr

/-- Embeds the `forgot_password` handler: it returns a fixed message and
performs no database operation (the second component is the list of
database operations it issues). -/
def forgot_password (_request : ForgotPasswordRequest) : HttpResponse × List DbOp :=
  ({ status_code := 200,
     body := "If the email exists, a password reset link will be sent" }, [])

/-! ## Audit middleware (middleware/audit_middleware.py) -/

/-- AuditActionType enumeration from models/audit.py. -/
inductive AuditActionType
  | CREATE | READ | UPDATE | DELETE | LOGIN | LOGOUT | ACCESS_DENIED | EXPORT
  deriving DecidableEq, Repr

/-- AuditResourceType enumeration from models/audit.py (the members the
middleware uses). -/
inductive AuditResourceType
  | USER | PATIENT | ORGANIZATION | LOCATION | PROGRAM
  | ENGAGEMENT | WEEKLY_METRICS | AUTH | SYSTEM
  deriving DecidableEq, Repr

/-- The parts of the inbound request the middleware inspects. -/
structure RequestInfo where
  method : String
  path : String
  query_params : List (String × String)
  deriving DecidableEq, Repr

/-- Whether the second character list is an initial segment of the
first. -/
def charListStartsWith : List Char → List Char → Bool
  | _, [] => true
  | [], _ :: _ => false
  | c :: cs, d :: ds => c = d && charListStartsWith cs ds

/-- Whether the second character list occurs contiguously inside the
first. -/
def charListContainsSub : List Char → List Char → Bool
  | s, sub =>
    if charListStartsWith s sub then true
    else
      match s with
      | [] => false
      | _ :: cs => charListContainsSub cs sub

/-- Python substring containment `sub in s`. -/
def containsSub (s sub : String) : Bool :=
  charListContainsSub s.toList sub.toList

/-- Splits a character list at every occurrence of the separator,
accumulating the current segment in reverse; mirrors Python
str.split with a single-character separator. -/
def splitOnCharAux (sep : Char) : List Char → List Char → List String
  | [], acc => [String.mk acc.reverse]
  | c :: cs, acc =>
    if c = sep then String.mk acc.reverse :: splitOnCharAux sep cs []
    else splitOnCharAux sep cs (c :: acc)

/-- Python path.split with separator "/". -/
def splitSlash (s : String) : List String :=
  splitOnCharAux '/' s.toList []

/-- Excluded path set from the middleware constructor. -/
def excluded_paths : List String :=
  ["/health", "/docs", "/redoc", "/openapi.json", "/favicon.ico", "/static"]

/-- PHI endpoint markers from the middleware constructor. -/
def phi_endpoints : List String :=
  ["/patients", "/engagement", "/risk"]

/-- Export endpoint markers from the middleware constructor. -/
def export_endpoints : List String :=
  ["/export", "/download"]

/-- Embeds `_should_exclude_path`. -/
def should_exclude_path (path : String) : Bool :=
  excluded_paths.any fun excluded => path.startsWith excluded

/-- Embeds `_is_phi_endpoint`: Python uses substring containment. -/
def is_phi_endpoint (path : String) : Bool :=
  phi_endpoints.any fun phi_path => containsSub path phi_path

/-- Embeds `_is_export_endpoint`. -/
def is_export_endpoint (path : String) : Bool :=
  export_endpoints.any fun export_path => containsSub path export_path

/-- Embeds `_extract_resource_id`: split the path on "/", find the first
occurrence of the collection name, take the next segment if it exists and
is non-empty, and accept it only when it is 36 characters long with
exactly 4 hyphens. -/
def extract_resource_id (path resource_name : String) : Option String :=
  match (splitSlash path).findIdx? (fun s => s = resource_name) with
  | none => none
  | some idx =>
    match (splitSlash path)[idx + 1]? with
    | none => none
    | some resource_id =>
      if resource_id ≠ "" then
        if resource_id.length = 36 ∧ resource_id.toList.count '-' = 4 then
          some resource_id
        else none
      else none

/-- The path segment immediately following the first occurrence of the
collection name among the slash-separated segments.  This is the
spec-side description of which segment `_extract_resource_id` examines,
stated independently of the UUID-shape acceptance test. -/
def segmentAfterCollection (path resource_name : String) : Option String :=
  match (splitSlash path).findIdx? (fun s => s = resource_name) with
  | none => none
  | some idx => (splitSlash path)[idx + 1]?

/-- Embeds `_extract_patient_id`: when the path contains the substring
"/patients/" the result is whatever the path extraction yields, even when
that is absent; only otherwise is the patient_id query parameter
consulted. -/
def extract_patient_id (req : RequestInfo) : Option String :=
  if containsSub req.path "/patients/" then
    extract_resource_id req.path "patients"
  else
    match req.query_params.lookup "patient_id" with
    | some v => some v
    | none => none

/-- Embeds `_classify_request`. -/
def classify_request (req : RequestInfo) (resp : HttpResponse) :
    AuditActionType × Option AuditResourceType × Option String :=
  let path := req.path
  let action_type :=
    if path.startsWith "/auth/login" then AuditActionType.LOGIN
    else if path.startsWith "/auth/logout" then AuditActionType.LOGOUT
    else if resp.status_code = 403 then AuditActionType.ACCESS_DENIED
    else if containsSub path "/export" || containsSub path "/download" then
      AuditActionType.EXPORT
    else if req.method = "POST" then AuditActionType.CREATE
    else if req.method = "GET" || req.method = "HEAD" then AuditActionType.READ
    else if req.method = "PUT" || req.method = "PATCH" then AuditActionType.UPDATE
    else if req.method = "DELETE" then AuditActionType.DELETE
    else AuditActionType.READ
  let pair :=
    if containsSub path "/auth" then (some AuditResourceType.AUTH, none)
    else if containsSub path "/patients" then
      (some AuditResourceType.PATIENT, extract_resource_id path "patients")
    else if containsSub path "/users" then
      (some AuditResourceType.USER, extract_resource_id path "users")
    else if containsSub path "/organizations" then
      (some AuditResourceType.ORGANIZATION, extract_resource_id path "organizations")
    else if containsSub path "/locations" then
      (some AuditResourceType.LOCATION, extract_resource_id path "locations")
    else if containsSub path "/programs" then
      (some AuditResourceType.PROGRAM, extract_resource_id path "programs")
    else if containsSub path "/engagement" then (some AuditResourceType.ENGAGEMENT, none)
    else if containsSub path "/risk" then (some AuditResourceType.WEEKLY_METRICS, none)
    else (some AuditResourceType.SYSTEM, none)
  (action_type, pair.1, pair.2)

/-- Principal attribution fields of an audit entry; all null for
anonymous or failed extraction. -/
structure AuditUserInfo where
  user_id : Option String
  user_email : Option String
  user_role : Option String
  organization_id : Option String
  deriving DecidableEq, Repr

/-- The anonymous attribution `_extract_user_info` starts from. -/
def anonymousUserInfo : AuditUserInfo :=
  { user_id := none, user_email := none, user_role := none, organization_id := none }

/-- Embeds `_extract_user_info`: a failure anywhere inside the try block
(modelled by `extractFails`) and a missing/invalid token or unknown user
(modelled by `tokenUser = none`) both yield the anonymous attribution. -/
def extract_user_info (extractFails : Bool) (tokenUser : Option AuditUserInfo) :
    AuditUserInfo :=
  if extractFails then anonymousUserInfo
  else
    match tokenUser with
    | some info => info
    | none => anonymousUserInfo

/-- The audit row assembled by `dispatch` and written by
`_log_audit_entry` (the columns derived by middleware logic). -/
structure AuditEntry where
  user_info : AuditUserInfo
  method : String
  endpoint : String
  status_code : Nat
  action_type : AuditActionType
  resource_type : Option AuditResourceType
  resource_id : Option String
  phi_accessed : Bool
  data_exported : Bool
  patient_id : Option String
  deriving DecidableEq, Repr

/-- Outcome of one pass through the middleware: the response handed back
to the caller, the audit row that reached the database (none when audit
was skipped or the INSERT failed), and whether a persistence failure was
reported to the operational log. -/
structure DispatchResult where
  response : HttpResponse
  auditRecord : Option AuditEntry
  persistFailureLogged : Bool
  deriving DecidableEq, Repr

/-- Embeds `AuditMiddleware.dispatch`.  `extractFails` injects a failure
inside `_extract_user_info`; `persistFails` injects a failure inside
`_log_audit_entry`, which catches it and only prints.  The underlying
handler produces `handlerResponse`, which dispatch returns in every
branch. -/
def dispatch (enabled extractFails persistFails : Bool)
    (tokenUser : Option AuditUserInfo) (req : RequestInfo)
    (handlerResponse : HttpResponse) : DispatchResult :=
  if !enabled || should_exclude_path req.path then
    { response := handlerResponse, auditRecord := none, persistFailureLogged := false }
  else
    let user_info := extract_user_info extractFails tokenUser
    let response := handlerResponse
    let classified := classify_request req response
    let phi_accessed := is_phi_endpoint req.path
    let data_exported := is_export_endpoint req.path && response.status_code = 200
    let patient_id := extract_patient_id req
    let entry : AuditEntry :=
      { user_info := user_info, method := req.method, endpoint := req.path,
        status_code := response.status_code, action_type := classified.1,
        resource_type := classified.2.1, resource_id := classified.2.2,
        phi_accessed := phi_accessed, data_exported := data_exported,
        patient_id := patient_id }
    if persistFails then
      { response := response, auditRecord := none, persistFailureLogged := true }
    else
      { response := response, auditRecord := some entry, persistFailureLogged := false }

/-! ## Risk classifier

The formula lives in the database routines
`calculate_weekly_metrics_for_organization` and the views behind the
current-week risk endpoints; only their callers are under src/, so the
classifier is modelled from the spec. -/

/-- ComplianceStatus enumeration from models/patient.py. -/
inductive ComplianceStatus
  | compliant | at_risk | non_compliant | unassigned
  deriving DecidableEq, Repr

/-- Result triple of the classifier. -/
structure ClassifyResult where
  hoursRemainingNeeded : ℚ
  riskScore : ℚ
  complianceStatus : ComplianceStatus
  deriving DecidableEq, Repr

/-- Modelled from the spec: the pure risk classifier implemented by the
database function `calculate_weekly_metrics_for_organization` and the
risk views, which are not under src/.  `maxRiskScore` is the maximum
risk score the spec names without fixing a value; `hasAssignment` records
whether the patient has a Program/Location.  hoursRemainingNeeded is
max(0, required - attended); the risk score is the maximum when no clinic
hours remain and hours are still needed, otherwise the ratio of needed
hours to remaining clinic hours; the compliance status is unassigned
without a Program/Location, compliant at zero needed hours, at_risk while
the score is at most 1, and non_compliant beyond that. -/
def classify (maxRiskScore hoursAttended hoursRequired
    clinicHoursRemainingThisWeek : ℚ) (hasAssignment : Bool) : ClassifyResult :=
  let hoursRemainingNeeded := max 0 (hoursRequired - hoursAttended)
  let riskScore :=
    if clinicHoursRemainingThisWeek = 0 ∧ hoursRemainingNeeded > 0 then maxRiskScore
    else hoursRemainingNeeded / clinicHoursRemainingThisWeek
  let complianceStatus :=
    if !hasAssignment then ComplianceStatus.unassigned
    else if hoursRemainingNeeded = 0 then ComplianceStatus.compliant
    else if riskScore ≤ 1 then ComplianceStatus.at_risk
    else ComplianceStatus.non_compliant
  { hoursRemainingNeeded := hoursRemainingNeeded, riskScore := riskScore,
    complianceStatus := complianceStatus }

/-! ## Theorems -/

/-- C1: the claim requires that every tenant-scoped query runs on a
connection whose two context variables were set during the current
checkout.  The GET /auth/users request violates this: the dependency
`get_current_user` sets the context on its own checkout and releases
that connection, and the handler then runs the tenant-scoped user listing
on a second, freshly checked-out connection with no `set_config` at all;
the whole request trace fails the per-checkout discipline even though the
dependency checkout in isolation satisfies it. -/
theorem C1_get_users_context_not_fresh :
    traceOk (getUsersRequestTrace orgAdminA) = false ∧
    checkoutOk (getCurrentUserCheckout orgAdminA) = true ∧
    checkoutOk (getUsersCheckout orgAdminA) = false := by decide

/-- C2: the claim requires that whenever the tenancy context is
established, a null organization is explicitly written as the empty
value.  The router-site context block (engagement.py and the other
routers) issues no org `set_config` at all for a system admin with null
organization_id, while the dependency site in utils/dependencies.py does
clear it; the claim fails at every router establishment site. -/
theorem C2_router_context_org_not_cleared :
    touchesOrg (routerRlsContext sysAdmin) = false ∧
    clearsOrg (getCurrentUserCheckout sysAdmin) = true ∧
    routerRlsContext sysAdmin = [DbOp.setConfigRole "system_admin"] := by decide

/-- Deactivated account holding a correct password, for the login claim. -/
def inactiveUser : UserRow :=
  { email := "clinician@example.org", password_hash := "correct-password",
    is_active := false }

/-- Password check capability that accepts exactly the stored hash. -/
def eqVerify : String → String → Bool := fun plain digest => plain = digest

/-- C6 counterexample: presenting correct credentials for a deactivated
account makes the login handler raise HTTP 403 with the deactivation
message, not HTTP 401 as the claim states. -/
theorem C6_counterexample_deactivated_login :
    login eqVerify (fun _ => some inactiveUser)
        { email := "clinician@example.org", password := "correct-password" } =
      Except.error 403 ∧
    (Except.error 403 : Except Nat UserRow) ≠ Except.error 401 :=
  ⟨rfl, by simp⟩

/-- C6 amended: for every login attempt presenting correct credentials
for an account whose active flag is false, the login operation fails with
Forbidden, HTTP status 403. -/
theorem C6_deactivated_login_403 (verify : String → String → Bool)
    (lookup : String → Option UserRow) (creds : UserLogin) (u : UserRow)
    (hl : lookup creds.email = some u)
    (hv : verify creds.password u.password_hash = true)
    (hi : u.is_active = false) :
    login verify lookup creds = Except.error 403 := by
  simp [login, hl, hv, hi]

/-- C6 witness: the amended theorem applied at the concrete deactivated
account. -/
theorem C6_deactivated_login_403_witness :
    login eqVerify (fun _ => some inactiveUser)
        { email := "clinician@example.org", password := "correct-password" } =
      Except.error 403 :=
  C6_deactivated_login_403 eqVerify (fun _ => some inactiveUser)
    { email := "clinician@example.org", password := "correct-password" }
    inactiveUser rfl (by decide) rfl

/-- The middleware hands back exactly the handler response in every
branch: audit disabled, excluded path, extraction failure, persistence
failure, or full function. -/
theorem dispatch_response_eq (enabled extractFails persistFails : Bool)
    (tokenUser : Option AuditUserInfo) (req : RequestInfo) (resp : HttpResponse) :
    (dispatch enabled extractFails persistFails tokenUser req resp).response = resp := by
  unfold dispatch
  split
  · rfl
  · split
    · rfl
    · rfl

/-- C7: any failure inside audit processing is absorbed: the middleware
returns exactly the response produced by the underlying handler, and the
returned status code and body agree with those of any other audit
configuration (disabled, failing, or fully functional) for the same
request and handler response. -/
theorem C7_audit_never_changes_response (enabled extractFails persistFails : Bool)
    (tokenUser : Option AuditUserInfo) (req : RequestInfo) (resp : HttpResponse) :
    (dispatch enabled extractFails persistFails tokenUser req resp).response = resp ∧
    ∀ (e2 x2 p2 : Bool) (t2 : Option AuditUserInfo),
      (dispatch enabled extractFails persistFails tokenUser req resp).response.status_code =
        (dispatch e2 x2 p2 t2 req resp).response.status_code ∧
      (dispatch enabled extractFails persistFails tokenUser req resp).response.body =
        (dispatch e2 x2 p2 t2 req resp).response.body := by
  refine ⟨dispatch_response_eq _ _ _ _ _ _, ?_⟩
  intro e2 x2 p2 t2
  rw [dispatch_response_eq, dispatch_response_eq]
  exact ⟨rfl, rfl⟩

/-- C10: forgot-password performs no database operation and returns the
same fixed success response for every request body, so an
existing-account email and a nonexistent email produce identical
observable responses. -/
theorem C10_forgot_password_uniform (r1 r2 : ForgotPasswordRequest) :
    forgot_password r1 = forgot_password r2 ∧
    (forgot_password r1).2 = [] ∧
    (forgot_password r1).1 =
      { status_code := 200,
        body := "If the email exists, a password reset link will be sent" } :=
  ⟨rfl, rfl, rfl⟩

/-- Request whose path has a patients segment with a non-UUID id and
whose query carries a patient_id. -/
def patientsNonUuidReq : RequestInfo :=
  { method := "GET", path := "/patients/123",
    query_params := [("patient_id", "abc")] }

/-- C9 counterexample: for the path /patients/123 the path extraction
yields no id, and the middleware returns no patientId at all even though
the patient_id query parameter is present; the claimed fallback to the
query parameter does not happen. -/
theorem C9_counterexample_no_query_fallback :
    extract_patient_id patientsNonUuidReq = none ∧
    patientsNonUuidReq.query_params.lookup "patient_id" = some "abc" ∧
    (none : Option String) ≠ some "abc" :=
  ⟨rfl, rfl, by simp⟩

/-- C9 amended: when the path contains the substring /patients/ the audit
patientId is exactly the path extraction result, even when that result is
absent; the patient_id query parameter is consulted only when the path
does not contain /patients/. -/
theorem C9_patient_id_path_dominates (req : RequestInfo) :
    (containsSub req.path "/patients/" = true →
      extract_patient_id req = extract_resource_id req.path "patients") ∧
    (containsSub req.path "/patients/" = false →
      extract_patient_id req = req.query_params.lookup "patient_id") := by
  constructor
  · intro h
    simp [extract_patient_id, h]
  · intro h
    simp only [extract_patient_id, h, Bool.false_eq_true, if_false]
    cases req.query_params.lookup "patient_id" <;> rfl

/-- Request with no patients path segment and a patient_id query
parameter, used to witness the query-parameter branch. -/
def engagementQueryReq : RequestInfo :=
  { method := "GET", path := "/engagement/dashboard",
    query_params := [("patient_id", "abc")] }

/-- C9 witness: the amended theorem applied at a concrete request whose
path has no patients segment. -/
theorem C9_patient_id_path_dominates_witness :
    extract_patient_id engagementQueryReq =
      engagementQueryReq.query_params.lookup "patient_id" :=
  (C9_patient_id_path_dominates engagementQueryReq).2 rfl

/-- Patient of tenant org-a with no assignment yet. -/
def patientA : Patient :=
  { organization_id := "org-a", program_id := none, location_id := none,
    assignment_status := "pending" }

/-- Active program owned by the other tenant org-b. -/
def programB : ProgramRow := { organization_id := "org-b" }

/-- Location owned by tenant org-a. -/
def locationA : LocationRow := { organization_id := "org-a" }

/-- C5: for every caller role, assigning a patient to a program or
location that belongs to a different tenant fails with HTTP 400 and the
patient row is left unchanged (the UPDATE is never reached, so the final
state is the original row). -/
theorem C5_cross_tenant_assignment_rejected (current : Principal)
    (req : PatientAssignmentRequest)
    (lookupPatient : String → Option Patient)
    (lookupProgram : String → Option ProgramRow)
    (lookupLocation : String → Option LocationRow)
    (patient : Patient) (program : ProgramRow) (location : LocationRow)
    (hpat : lookupPatient req.patient_id = some patient)
    (hpr : lookupProgram req.program_id = some program)
    (hlo : lookupLocation req.location_id = some location)
    (hcross : program.organization_id ≠ patient.organization_id ∨
              location.organization_id ≠ patient.organization_id) :
    assign_patient current req lookupPatient lookupProgram lookupLocation =
      (Except.error 400, some patient) := by
  unfold assign_patient
  rw [hpat, hpr, hlo]
  simp only [if_pos hcross]

/-- C5 witness: the theorem applied with an organization admin of org-a,
a patient of org-a and a program of org-b. -/
theorem C5_cross_tenant_assignment_rejected_witness :
    assign_patient orgAdminA
        { patient_id := "p1", program_id := "pr1", location_id := "l1" }
        (fun _ => some patientA) (fun _ => some programB)
        (fun _ => some locationA) =
      (Except.error 400, some patientA) :=
  C5_cross_tenant_assignment_rejected orgAdminA
    { patient_id := "p1", program_id := "pr1", location_id := "l1" }
    (fun _ => some patientA) (fun _ => some programB) (fun _ => some locationA)
    patientA programB locationA rfl rfl rfl (Or.inl (by decide))

/-- The derived status string satisfies the assigned-iff-both and
pending-otherwise description. -/
theorem derived_status_spec (po lo : Option String) :
    ((if po.isSome && lo.isSome then "assigned" else "pending") = "assigned" ↔
      po.isSome = true ∧ lo.isSome = true) ∧
    (¬(po.isSome = true ∧ lo.isSome = true) →
      (if po.isSome && lo.isSome then "assigned" else "pending") = "pending") := by
  cases po <;> cases lo <;> simp

/-- Writing a value only when it differs from the stored one still leaves
the derived value stored. -/
theorem write_if_changed (d x : String) : (if d ≠ x then d else x) = d := by
  by_cases h : d = x
  · simp [h]
  · simp [h]

/-- C4: after create, update, or single assignment completes
successfully, the stored assignment_status equals "assigned" iff both
program_id and location_id are non-null, and equals "pending"
otherwise. -/
theorem C4_assignment_status_derived :
    (∀ (current : Principal) (pd : PatientCreate)
        (lp : String → Option ProgramRow) (ll : String → Option LocationRow)
        (p : Patient),
        create_patient current pd lp ll = Except.ok p →
        ((p.assignment_status = "assigned" ↔
            p.program_id.isSome = true ∧ p.location_id.isSome = true) ∧
         (¬(p.program_id.isSome = true ∧ p.location_id.isSome = true) →
            p.assignment_status = "pending"))) ∧
    (∀ (cp : Patient) (upd : PatientUpdate)
        (lp : String → Option ProgramRow) (ll : String → Option LocationRow)
        (p : Patient),
        update_patient cp upd lp ll = Except.ok p →
        ((p.assignment_status = "assigned" ↔
            p.program_id.isSome = true ∧ p.location_id.isSome = true) ∧
         (¬(p.program_id.isSome = true ∧ p.location_id.isSome = true) →
            p.assignment_status = "pending"))) ∧
    (∀ (current : Principal) (req : PatientAssignmentRequest)
        (lpat : String → Option Patient)
        (lp : String → Option ProgramRow) (ll : String → Option LocationRow)
        (p : Patient) (finalState : Option Patient),
        assign_patient current req lpat lp ll = (Except.ok p, finalState) →
        ((p.assignment_status = "assigned" ↔
            p.program_id.isSome = true ∧ p.location_id.isSome = true) ∧
         (¬(p.program_id.isSome = true ∧ p.location_id.isSome = true) →
            p.assignment_status = "pending"))) := by
  refine ⟨?_, ?_, ?_⟩
  · intro current pd lp ll p h
    unfold create_patient at h
    split at h
    · exact Except.noConfusion h
    · split at h
      · exact Except.noConfusion h
      · split at h
        · exact Except.noConfusion h
        · injection h with h
          subst h
          simpa using derived_status_spec pd.program_id pd.location_id
  · intro cp upd lp ll p h
    unfold update_patient at h
    split at h
    · exact Except.noConfusion h
    · split at h
      · exact Except.noConfusion h
      · split at h
        · exact Except.noConfusion h
        · injection h with h
          subst h
          simp only [write_if_changed]
          simpa using
            derived_status_spec
              (match upd.program_id with
               | some p => some p
               | none => cp.program_id)
              (match upd.location_id with
               | some l => some l
               | none => cp.location_id)
  · intro current req lpat lp ll p finalState h
    unfold assign_patient at h
    split at h
    · simp at h
    · split at h
      · simp at h
      · simp at h
      · split at h
        · simp at h
        · rw [Prod.mk.injEq] at h
          obtain ⟨h1, _⟩ := h
          injection h1 with h1
          subst h1
          simp

/-- C4 witness: the create clause of the theorem applied at a concrete
successful creation with both ids provided. -/
theorem C4_assignment_status_derived_witness :
    (({ organization_id := "org-a", program_id := some "pr1",
        location_id := some "l1", assignment_status := "assigned" } : Patient).assignment_status
        = "assigned" ↔
      (some "pr1" : Option String).isSome = true ∧
        (some "l1" : Option String).isSome = true) :=
  (C4_assignment_status_derived.1 sysAdmin
    { organization_id := some "org-a", program_id := some "pr1",
      location_id := some "l1" }
    (fun _ => some { organization_id := "org-a" })
    (fun _ => some { organization_id := "org-a" })
    { organization_id := "org-a", program_id := some "pr1",
      location_id := some "l1", assignment_status := "assigned" }
    rfl).1

/-- C8: the audit resourceId is some segment s exactly when s is the path
segment immediately following the first occurrence of the recognized
collection name and s is 36 characters long with exactly 4 hyphens; any
other segment yields an absent resourceId. -/
theorem C8_resource_id_uuid_shape (path name s : String) :
    extract_resource_id path name = some s ↔
      (segmentAfterCollection path name = some s ∧
       s.length = 36 ∧ s.toList.count '-' = 4) := by
  unfold extract_resource_id segmentAfterCollection
  cases hidx : (splitSlash path).findIdx? (fun t => t = name) with
  | none => simp
  | some idx =>
    cases hget : (splitSlash path)[idx + 1]? with
    | none => simp [hget]
    | some seg =>
      simp only [hget]
      by_cases hne : seg = ""
      · subst hne
        rw [if_neg (by simp)]
        constructor
        · intro h
          exact Option.noConfusion h
        · rintro ⟨hs, hlen, _⟩
          injection hs with hs
          subst hs
          exact absurd hlen (by decide)
      · rw [if_pos hne]
        by_cases hcond : seg.length = 36 ∧ seg.toList.count '-' = 4
        · rw [if_pos hcond]
          constructor
          · intro h
            injection h with h
            subst h
            exact ⟨rfl, hcond⟩
          · rintro ⟨hs, _, _⟩
            exact hs
        · rw [if_neg hcond]
          constructor
          · intro h
            exact Option.noConfusion h
          · rintro ⟨hs, hlen, hcount⟩
            injection hs with hs
            subst hs
            exact absurd ⟨hlen, hcount⟩ hcond

/-- C3: Modelled from the spec: the classifier computes
hoursRemainingNeeded as max(0, required - attended); scores the maximum
risk when no clinic hours remain and hours are still needed, else the
ratio of needed hours to remaining clinic hours; and classifies
unassigned without a Program/Location, compliant at zero needed hours,
at_risk while the score is at most 1, and non_compliant beyond - for all
non-negative inputs. -/
theorem C3_classifier_formula (maxRisk att req rem : ℚ) (ha : Bool)
    (r : ClassifyResult) (hr : r = classify maxRisk att req rem ha)
    (hmax : 1 < maxRisk) (h0att : 0 ≤ att) (h0req : 0 ≤ req) (h0rem : 0 ≤ rem) :
    r.hoursRemainingNeeded = max 0 (req - att) ∧
    (rem = 0 ∧ 0 < r.hoursRemainingNeeded → r.riskScore = maxRisk) ∧
    (¬(rem = 0 ∧ 0 < r.hoursRemainingNeeded) →
      r.riskScore = r.hoursRemainingNeeded / rem) ∧
    (ha = false → r.complianceStatus = ComplianceStatus.unassigned) ∧
    (ha = true → r.hoursRemainingNeeded = 0 →
      r.complianceStatus = ComplianceStatus.compliant) ∧
    (ha = true → 0 < r.hoursRemainingNeeded → r.riskScore ≤ 1 →
      r.complianceStatus = ComplianceStatus.at_risk) ∧
    (ha = true → 0 < r.hoursRemainingNeeded → 1 < r.riskScore →
      r.complianceStatus = ComplianceStatus.non_compliant) := by
  subst hr
  simp only [classify]
  refine ⟨trivial, ?_, ?_, ?_, ?_, ?_, ?_⟩
  · intro h
    rw [if_pos h]
  · intro h
    rw [if_neg h]
  · intro h
    subst h
    simp
  · intro h hzero
    subst h
    simp only [Bool.not_true, Bool.false_eq_true, if_false]
    rw [if_pos hzero]
  · intro h hpos hle
    subst h
    simp only [Bool.not_true, Bool.false_eq_true, if_false]
    rw [if_neg (ne_of_gt hpos), if_pos hle]
  · intro h hpos hgt
    subst h
    simp only [Bool.not_true, Bool.false_eq_true, if_false]
    rw [if_neg (ne_of_gt hpos), if_neg (not_le.mpr hgt)]

/-- C3 witness: the theorem applied at attended 5 of required 10 hours
with 10 clinic hours remaining. -/
theorem C3_classifier_formula_witness :
    (classify 999 5 10 10 true).hoursRemainingNeeded = max 0 (10 - 5) :=
  (C3_classifier_formula 999 5 10 10 true (classify 999 5 10 10 true) rfl
    (by norm_num) (by norm_num) (by norm_num) (by norm_num)).1

end Backend
